import Mathlib

/-!
Shallow embedding of `src/csv_to_html.py` (CSV to HTML table converter).

Strings are modelled as `List Char`.  Each definition mirrors one piece of
the Python source:

* `pyStrip`       — `str.strip()` (ASCII whitespace range);
* `escChar` / `htmlEscape` — `html.escape(s, quote=True)` as a per-character
  map (`&` is replaced first in the library, so the sequential replacements
  coincide with the per-character map);
* `headerCellHtml`, `dataCellHtml`, `dataRowHtml`, `theadPart`, `tbodyPart`,
  `infoPart`, `generate_html` — the renderer `generate_html(rows, title)`;
* `basename`, `splitextRoot`, `pyTitle`, `defaultTitle` — the default-title
  derivation in `csv_to_html`;
* `csv_to_html`, `main_run` — the conversion pipeline and the entry point,
  with the file system and the csv reader abstracted by a `present` flag and
  a `ReadOutcome` (the outcome of open + delimiter sniffing + `csv.reader`).
-/

set_option maxRecDepth 20000

namespace Csv2Html

/-- Whitespace as stripped by Python `str.strip()`, restricted to the ASCII
range: space, tab, newline, carriage return, vertical tab (11), form feed (12). -/
def pyIsWs (c : Char) : Bool :=
  c = ' ' || c = '\t' || c = '\n' || c = '\r' || c = Char.ofNat 11 || c = Char.ofNat 12

/-- Python `str.strip()`: drop leading and trailing whitespace. -/
def pyStrip (s : List Char) : List Char :=
  ((s.dropWhile pyIsWs).reverse.dropWhile pyIsWs).reverse

/-- Per-character map of Python `html.escape(s, quote=True)`: ampersand to
`&amp;`, angle brackets to `&lt;` and `&gt;`, double quote (`Char.ofNat 34`)
to `&quot;`, single quote (`Char.ofNat 39`) to `&#x27;`.  The entity strings
are spelled as explicit character lists. -/
def escChar (c : Char) : List Char :=
  if c = '&' then ['&', 'a', 'm', 'p', ';']
  else if c = '<' then ['&', 'l', 't', ';']
  else if c = '>' then ['&', 'g', 't', ';']
  else if c = Char.ofNat 34 then ['&', 'q', 'u', 'o', 't', ';']
  else if c = Char.ofNat 39 then ['&', '#', 'x', '2', '7', ';']
  else [c]

/-- Python `html.escape(s, quote=True)`. -/
def htmlEscape (s : List Char) : List Char :=
  s.flatMap escChar

/-- The `css_styles` literal of `generate_html` (source lines 84-183). -/
def cssStyles : List Char :=
  "\n    <style>\n        body \x7b\n            font-family: \x27Segoe UI\x27, Tahoma, Geneva, Verdana, sans-serif;\n            margin: 40px;\n            background-color: #f5f5f5;\n            color: #333;\n        \x7d\n\n        .container \x7b\n            max-width: 1200px;\n            margin: 0 auto;\n            background-color: white;\n            padding: 30px;\n            border-radius: 8px;\n            box-shadow: 0 2px 10px rgba(0,0,0,0.1);\n        \x7d\n\n        h1 \x7b\n            color: #2c3e50;\n            text-align: center;\n            margin-bottom: 30px;\n            font-weight: 300;\n            font-size: 2.2em;\n        \x7d\n\n        table \x7b\n            width: 100%;\n            border-collapse: collapse;\n            margin: 20px 0;\n            font-size: 14px;\n            box-shadow: 0 2px 8px rgba(0,0,0,0.1);\n            border-radius: 6px;\n            overflow: hidden;\n        \x7d\n\n        th \x7b\n            background: linear-gradient(135deg, #667eea 0%, #764ba2 100%);\n            color: white;\n            font-weight: 600;\n            padding: 15px 12px;\n            text-align: left;\n            font-size: 13px;\n            text-transform: uppercase;\n            letter-spacing: 0.5px;\n        \x7d\n\n        td \x7b\n            padding: 12px;\n            border-bottom: 1px solid #e0e0e0;\n            transition: background-color 0.2s ease;\n        \x7d\n\n        tr:hover \x7b\n            background-color: #f8f9fa;\n        \x7d\n\n        tr:nth-child(even) \x7b\n            background-color: #fafafa;\n        \x7d\n\n        tr:nth-child(even):hover \x7b\n            background-color: #f0f0f0;\n        \x7d\n\n        .table-info \x7b\n            text-align: center;\n            margin-top: 20px;\n            color: #666;\n            font-size: 12px;\n        \x7d\n\n        .empty-cell \x7b\n            color: #999;\n            font-style: italic;\n        \x7d\n\n        @media (max-width: 768px) \x7b\n            body \x7b\n                margin: 10px;\n            \x7d\n\n            .container \x7b\n                padding: 15px;\n            \x7d\n\n            table \x7b\n                font-size: 12px;\n            \x7d\n\n            th, td \x7b\n                padding: 8px 6px;\n            \x7d\n\n            h1 \x7b\n                font-size: 1.8em;\n            \x7d\n        \x7d\n    </style>\n    ".toList

/-- Document text before the first interpolated `escape(title)`. -/
def docHead1 : List Char :=
  "<!DOCTYPE html>\n<html lang=\"en\">\n<head>\n    <meta charset=\"UTF-8\">\n    <meta name=\"viewport\" content=\"width=device-width, initial-scale=1.0\">\n    <title>".toList

/-- Document text between `escape(title)` and the interpolated `css_styles`. -/
def docHead2 : List Char :=
  "</title>\n    ".toList

/-- Document text between `css_styles` and the second `escape(title)`. -/
def docHead3 : List Char :=
  "\n</head>\n<body>\n    <div class=\"container\">\n        <h1>".toList

/-- Document text after the second `escape(title)`, up to `<table>`. -/
def docHead4 : List Char :=
  "</h1>\n        <table>\n".toList

/-- The leading f-string of `generate_html` (source lines 186-198). -/
def docHead (title : List Char) : List Char :=
  docHead1 ++ htmlEscape title ++ docHead2 ++ cssStyles ++ docHead3 ++ htmlEscape title ++ docHead4

def thOpen : List Char := "                    <th>".toList

def thClose : List Char := "</th>\n".toList

/-- One header cell line: `<th>{escape(str(header).strip())}</th>` (line 204). -/
def headerCellHtml (h : List Char) : List Char :=
  thOpen ++ htmlEscape (pyStrip h) ++ thClose

def tdOpen : List Char := "                    <td>".toList

def tdClose : List Char := "</td>\n".toList

/-- The placeholder line emitted for an empty-after-strip body cell (line 214). -/
def emptyCellLine : List Char :=
  "                    <td><span class=\"empty-cell\">—</span></td>\n".toList

/-- One body cell: strip, then placeholder if falsy, else escaped (lines 211-216). -/
def dataCellHtml (cell : List Char) : List Char :=
  let cc := pyStrip cell
  if cc = [] then emptyCellLine else tdOpen ++ htmlEscape cc ++ tdClose

def trOpen : List Char := "                <tr>\n".toList

def trClose : List Char := "                </tr>\n".toList

/-- One body row (lines 209-217). -/
def dataRowHtml (row : List (List Char)) : List Char :=
  trOpen ++ row.flatMap dataCellHtml ++ trClose

def theadOpen : List Char := "            <thead>\n                <tr>\n".toList

def theadClose : List Char := "                </tr>\n            </thead>\n".toList

/-- The header section: emitted only under `if rows:` from `rows[0]` (lines 200-205). -/
def theadPart : List (List (List Char)) → List Char
  | [] => []
  | r0 :: _ => theadOpen ++ r0.flatMap headerCellHtml ++ theadClose

def tbodyOpen : List Char := "            <tbody>\n".toList

def tbodyClose : List Char := "            </tbody>\n        </table>\n".toList

/-- The body section, over `rows[1:]` (lines 208-219). -/
def tbodyPart (rows : List (List (List Char))) : List Char :=
  tbodyOpen ++ (rows.drop 1).flatMap dataRowHtml ++ tbodyClose

/-- `total_rows = len(rows) - 1 if len(rows) > 1 else 0` (line 222). -/
def totalRows (rows : List (List (List Char))) : Nat :=
  if rows.length > 1 then rows.length - 1 else 0

/-- `total_cols = len(rows[0]) if rows else 0` (line 223). -/
def totalCols : List (List (List Char)) → Nat
  | [] => 0
  | r0 :: _ => r0.length

/-- The summary sentence `Table contains {total_rows} rows and {total_cols} columns`. -/
def summaryText (r c : Nat) : List Char :=
  "Table contains ".toList ++ (toString r).toList ++ " rows and ".toList
    ++ (toString c).toList ++ " columns".toList

def infoOpen : List Char := "        <div class=\"table-info\">\n            ".toList

def infoClose : List Char := "\n        </div>\n    </div>\n</body>\n</html>".toList

/-- The trailing table-info f-string (lines 224-229). -/
def infoPart (rows : List (List (List Char))) : List Char :=
  infoOpen ++ summaryText (totalRows rows) (totalCols rows) ++ infoClose

/-- `generate_html(rows, title)` (lines 71-231): prefix with title and styles,
header section, body section, summary. -/
def generate_html (rows : List (List (List Char))) (title : List Char) : List Char :=
  docHead title ++ theadPart rows ++ tbodyPart rows ++ infoPart rows

/-- `os.path.basename` on a POSIX path: the part after the last slash. -/
def basename (p : List Char) : List Char :=
  (p.reverse.takeWhile (fun c => c ≠ '/')).reverse

/-- Root of `os.path.splitext`: split at the last dot, unless every character
before that dot is itself a dot (leading dots are not extension separators). -/
def splitextRoot (p : List Char) : List Char :=
  match p.reverse.findIdx? (fun c => c = '.') with
  | none => p
  | some k =>
    let sepIndex := p.length - 1 - k
    if (p.take sepIndex).any (fun c => c ≠ '.') then p.take sepIndex else p

/-- Worker for `str.title()`: the flag records whether the previous character
was a letter; a letter after a non-letter is uppercased, otherwise lowercased. -/
def pyTitleGo : Bool → List Char → List Char
  | _, [] => []
  | prevAlpha, c :: rest =>
    (if c.isAlpha then (if prevAlpha then c.toLower else c.toUpper) else c)
      :: pyTitleGo c.isAlpha rest

/-- Python `str.title()` (ASCII letters). -/
def pyTitle (s : List Char) : List Char :=
  pyTitleGo false s

/-- The default title (line 41):
`os.path.splitext(os.path.basename(path))[0].replace('_', ' ').title()`. -/
def defaultTitle (path : List Char) : List Char :=
  pyTitle ((splitextRoot (basename path)).map (fun c => if c = '_' then ' ' else c))

/-- The exceptions `csv_to_html` can raise and `main` handles separately. -/
inductive PyError where
  | fileNotFound (msg : List Char)
  | valueError (msg : List Char)
deriving DecidableEq, Repr

/-- Outcome of `open` + delimiter sniffing + `csv.reader` on an existing
file: either some exception (the sniffer raises `Could not determine
delimiter` when no candidate separator is found in the sample, as on empty
or newline-only content, and any decoding failure raises), or the parsed
rows.  Note that the sniffer does not raise on every whitespace-only file:
a sample of space-only lines yields the space character as a consistently
frequent delimiter candidate, so such a file parses into nonempty rows. -/
inductive ReadOutcome where
  | err (msg : List Char)
  | ok (rows : List (List (List Char)))
deriving DecidableEq

/-- `csv_to_html(csv_file_path, output_file=None, title)` (lines 23-68), with
the file system abstracted: `present` is `os.path.exists`, `outcome` the
reader result.  Mirrors the source order: existence check, default title,
read (any reader exception re-raised as `ValueError`), empty-rows check,
then `generate_html`. -/
def csv_to_html (present : Bool) (outcome : ReadOutcome) (path : List Char)
    (title : Option (List Char)) : Except PyError (List Char) :=
  if present = false then
    .error (.fileNotFound ("CSV file not found: ".toList ++ path))
  else
    let t := match title with
      | some t => t
      | none => defaultTitle path
    match outcome with
    | .err e => .error (.valueError ("Error reading CSV file: ".toList ++ e))
    | .ok rows =>
      if rows = [] then .error (.valueError "CSV file is empty".toList)
      else .ok (generate_html rows t)

/-- Observable result of one run of `main` in stdout mode. -/
structure RunResult where
  exitCode : Nat
  stdout : List Char
  stderr : List Char
deriving DecidableEq

/-- `main()` (lines 234-275) in stdout mode (no output file): print the
document on success, else print `Error: {e}` to stderr and exit 1. -/
def main_run (present : Bool) (outcome : ReadOutcome) (path : List Char)
    (title : Option (List Char)) : RunResult :=
  match csv_to_html present outcome path title with
  | .ok html => ⟨0, html ++ ['\n'], []⟩
  | .error (.fileNotFound m) => ⟨1, [], "Error: ".toList ++ m ++ ['\n']⟩
  | .error (.valueError m) => ⟨1, [], "Error: ".toList ++ m ++ ['\n']⟩

/-- Entity check: a list starting right after an ampersand begins with one of
the five entity bodies produced by `escChar`. -/
def ampEntityAt : List Char → Bool
  | 'a' :: 'm' :: 'p' :: ';' :: _ => true
  | 'l' :: 't' :: ';' :: _ => true
  | 'g' :: 't' :: ';' :: _ => true
  | 'q' :: 'u' :: 'o' :: 't' :: ';' :: _ => true
  | '#' :: 'x' :: '2' :: '7' :: ';' :: _ => true
  | _ => false

/-- Every ampersand in the list starts a character entity. -/
def ampsOk : List Char → Bool
  | [] => true
  | c :: rest => (if c = '&' then ampEntityAt rest else true) && ampsOk rest

/-- No raw markup-significant character: no angle bracket, no quote character
(codes 34 and 39), and every ampersand starts an entity. -/
def noRawSpecials (l : List Char) : Bool :=
  l.all (fun c => !(c = '<' || c = '>' || c = Char.ofNat 34 || c = Char.ofNat 39))
    && ampsOk l

/-- Neither the first nor the last character is whitespace. -/
def noEdgeWs (l : List Char) : Bool :=
  (match l.head? with | some c => !pyIsWs c | none => true)
    && (match l.getLast? with | some c => !pyIsWs c | none => true)

/-- The spec scenario table, parsed from the input `a,b\n1,2\n,4\n`. -/
def scenarioRows : List (List (List Char)) :=
  [ [ "a".toList, "b".toList ], [ "1".toList, "2".toList ], [ [], "4".toList ] ]

/-- The rows the reading stage produces for the whitespace-only file whose
text is two lines of two spaces (`"  \n  \n"`): `csv.Sniffer` finds no
quotes and its delimiter guesser sees the space character occurring exactly
twice on every line (perfectly consistent frequency), so it returns `' '`
as the delimiter without raising; `csv.reader` with delimiter `' '` then
splits each line `"  "` into three empty fields.  The parse therefore
succeeds with two rows of three empty strings each. -/
def spaceOnlyRows : List (List (List Char)) :=
  [ [ [], [], [] ], [ [], [], [] ] ]

/-! ## General list lemmas -/

theorem isInf_append_right {α : Type _} {x r : List α} (l : List α) (h : x <:+: r) :
    x <:+: l ++ r := by
  obtain ⟨s, t, hst⟩ := h
  exact ⟨l ++ s, t, by rw [← hst]; simp [List.append_assoc]⟩

theorem isInf_append_left {α : Type _} {x l : List α} (r : List α) (h : x <:+: l) :
    x <:+: l ++ r := by
  obtain ⟨s, t, hst⟩ := h
  exact ⟨s, t ++ r, by rw [← hst]; simp [List.append_assoc]⟩

theorem isInf_of_mem_flatMap {α β : Type _} (f : α → List β) {a : α} {l : List α}
    (h : a ∈ l) : f a <:+: l.flatMap f := by
  induction l with
  | nil => cases h
  | cons b t ih =>
    rw [List.flatMap_cons]
    rcases List.mem_cons.mp h with rfl | hmem
    · exact isInf_append_left _ (List.infix_refl _)
    · exact isInf_append_right _ (ih hmem)

/-! ## Claim C1: the summary line -/

theorem totalRows_cons (header : List (List Char)) (dataRows : List (List (List Char))) :
    totalRows (header :: dataRows) = dataRows.length := by
  cases dataRows with
  | nil => simp [totalRows]
  | cons r t => simp [totalRows]

/-- C1: for a table whose header row has `M` fields and which has `N` data
rows after the header, the rendered document contains the summary sentence
reporting exactly `N` rows and `M` columns. -/
theorem claim_c1_summary (header : List (List Char)) (dataRows : List (List (List Char)))
    (title : List Char) :
    summaryText dataRows.length header.length <:+: generate_html (header :: dataRows) title := by
  have hr : totalRows (header :: dataRows) = dataRows.length := totalRows_cons header dataRows
  have hc : totalCols (header :: dataRows) = header.length := rfl
  unfold generate_html infoPart
  rw [hr, hc]
  exact isInf_append_right _ (List.infix_append _ _ _)

/-! ## Claim C2: escaping -/

theorem mem_escChar_not_special {c d : Char} (h : d ∈ escChar c) :
    ¬(d = '<' ∨ d = '>' ∨ d = Char.ofNat 34 ∨ d = Char.ofNat 39) := by
  unfold escChar at h
  split_ifs at h with h1 h2 h3 h4 h5
  · exact (by decide :
      ∀ x ∈ (['&', 'a', 'm', 'p', ';'] : List Char),
        ¬(x = '<' ∨ x = '>' ∨ x = Char.ofNat 34 ∨ x = Char.ofNat 39)) d h
  · exact (by decide :
      ∀ x ∈ (['&', 'l', 't', ';'] : List Char),
        ¬(x = '<' ∨ x = '>' ∨ x = Char.ofNat 34 ∨ x = Char.ofNat 39)) d h
  · exact (by decide :
      ∀ x ∈ (['&', 'g', 't', ';'] : List Char),
        ¬(x = '<' ∨ x = '>' ∨ x = Char.ofNat 34 ∨ x = Char.ofNat 39)) d h
  · exact (by decide :
      ∀ x ∈ (['&', 'q', 'u', 'o', 't', ';'] : List Char),
        ¬(x = '<' ∨ x = '>' ∨ x = Char.ofNat 34 ∨ x = Char.ofNat 39)) d h
  · exact (by decide :
      ∀ x ∈ (['&', '#', 'x', '2', '7', ';'] : List Char),
        ¬(x = '<' ∨ x = '>' ∨ x = Char.ofNat 34 ∨ x = Char.ofNat 39)) d h
  · rw [List.mem_singleton] at h
    subst h
    rintro (rfl | rfl | rfl | rfl)
    · exact h2 rfl
    · exact h3 rfl
    · exact h4 rfl
    · exact h5 rfl

theorem ampsOk_cons_amp {rest : List Char} (h : ampEntityAt rest = true)
    (h2 : ampsOk rest = true) : ampsOk ('&' :: rest) = true := by
  simp [ampsOk, h, h2]

theorem ampsOk_cons_other {c : Char} {rest : List Char} (hc : ¬(c = '&'))
    (h2 : ampsOk rest = true) : ampsOk (c :: rest) = true := by
  simp [ampsOk, hc, h2]

theorem ampsOk_escChar_append (c : Char) {l : List Char} (hl : ampsOk l = true) :
    ampsOk (escChar c ++ l) = true := by
  unfold escChar
  split_ifs with h1 h2 h3 h4 h5
  · refine ampsOk_cons_amp rfl ?_
    refine ampsOk_cons_other (by decide) ?_
    refine ampsOk_cons_other (by decide) ?_
    refine ampsOk_cons_other (by decide) ?_
    exact ampsOk_cons_other (by decide) hl
  · refine ampsOk_cons_amp rfl ?_
    refine ampsOk_cons_other (by decide) ?_
    refine ampsOk_cons_other (by decide) ?_
    exact ampsOk_cons_other (by decide) hl
  · refine ampsOk_cons_amp rfl ?_
    refine ampsOk_cons_other (by decide) ?_
    refine ampsOk_cons_other (by decide) ?_
    exact ampsOk_cons_other (by decide) hl
  · refine ampsOk_cons_amp rfl ?_
    refine ampsOk_cons_other (by decide) ?_
    refine ampsOk_cons_other (by decide) ?_
    refine ampsOk_cons_other (by decide) ?_
    refine ampsOk_cons_other (by decide) ?_
    exact ampsOk_cons_other (by decide) hl
  · refine ampsOk_cons_amp rfl ?_
    refine ampsOk_cons_other (by decide) ?_
    refine ampsOk_cons_other (by decide) ?_
    refine ampsOk_cons_other (by decide) ?_
    refine ampsOk_cons_other (by decide) ?_
    exact ampsOk_cons_other (by decide) hl
  · exact ampsOk_cons_other h1 hl

theorem ampsOk_htmlEscape (s : List Char) : ampsOk (htmlEscape s) = true := by
  induction s with
  | nil => rfl
  | cons c t ih =>
    rw [htmlEscape, List.flatMap_cons]
    exact ampsOk_escChar_append c ih

theorem noRawSpecials_htmlEscape (s : List Char) :
    noRawSpecials (htmlEscape s) = true := by
  unfold noRawSpecials
  rw [Bool.and_eq_true]
  constructor
  · rw [List.all_eq_true]
    intro x hx
    have h := mem_escChar_not_special (List.mem_flatMap.mp hx).choose_spec.2
    push_neg at h
    simp [h.1, h.2.1, h.2.2.1, h.2.2.2]
  · exact ampsOk_htmlEscape s

theorem escContent_inf_headerCell (cell : List Char) :
    htmlEscape (pyStrip cell) <:+: headerCellHtml cell :=
  List.infix_append _ _ _

theorem escContent_inf_dataCell (cell : List Char) :
    htmlEscape (pyStrip cell) <:+: dataCellHtml cell := by
  by_cases h : pyStrip cell = []
  · rw [h]
    exact ⟨[], dataCellHtml cell, by simp [htmlEscape]⟩
  · simp only [dataCellHtml, if_neg h]
    exact List.infix_append _ _ _

theorem headerCell_inf_doc {rows : List (List (List Char))} {cell : List Char}
    (h : cell ∈ rows.headD []) (title : List Char) :
    headerCellHtml cell <:+: generate_html rows title := by
  cases rows with
  | nil => simp at h
  | cons r0 rest =>
    have h1 : headerCellHtml cell <:+: r0.flatMap headerCellHtml :=
      isInf_of_mem_flatMap _ (by simpa using h)
    have h2 : headerCellHtml cell <:+: theadPart (r0 :: rest) := by
      unfold theadPart
      exact isInf_append_left _ (isInf_append_right _ h1)
    unfold generate_html
    exact isInf_append_left _ (isInf_append_left _ (isInf_append_right _ h2))

theorem dataCell_inf_doc {rows : List (List (List Char))} {row : List (List Char)}
    {cell : List Char} (hrow : row ∈ rows.drop 1) (hcell : cell ∈ row) (title : List Char) :
    dataCellHtml cell <:+: generate_html rows title := by
  have h1 : dataCellHtml cell <:+: dataRowHtml row := by
    unfold dataRowHtml
    exact isInf_append_left _ (isInf_append_right _ (isInf_of_mem_flatMap _ hcell))
  have h2 : dataRowHtml row <:+: tbodyPart rows := by
    unfold tbodyPart
    exact isInf_append_left _ (isInf_append_right _ (isInf_of_mem_flatMap _ hrow))
  unfold generate_html
  exact isInf_append_left _ (isInf_append_right _ (h1.trans h2))

/-- C2: every header or data cell of the table is embedded in the rendered
document through `htmlEscape` after stripping, and the escaped text contains
no raw angle bracket or quote character, with every ampersand starting a
character entity. -/
theorem claim_c2_escaped (rows : List (List (List Char))) (title cell : List Char)
    (h : cell ∈ rows.headD [] ∨ ∃ row, row ∈ rows.drop 1 ∧ cell ∈ row) :
    noRawSpecials (htmlEscape (pyStrip cell)) = true ∧
      htmlEscape (pyStrip cell) <:+: generate_html rows title := by
  refine ⟨noRawSpecials_htmlEscape _, ?_⟩
  rcases h with hh | ⟨row, hrow, hcell⟩
  · exact (escContent_inf_headerCell cell).trans (headerCell_inf_doc hh title)
  · exact (escContent_inf_dataCell cell).trans (dataCell_inf_doc hrow hcell title)

/-- Witness for C2 at the header cell `<&` of a one-cell table. -/
theorem claim_c2_escaped_witness :
    ( "<&".toList ∈ ([ [ "<&".toList ] ] : List (List (List Char))).headD [] ∨
        ∃ row, row ∈ ([ [ "<&".toList ] ] : List (List (List Char))).drop 1 ∧
          "<&".toList ∈ row) ∧
      (noRawSpecials (htmlEscape (pyStrip "<&".toList)) = true ∧
        htmlEscape (pyStrip "<&".toList) <:+: generate_html [ [ "<&".toList ] ] []) :=
  ⟨Or.inl (by decide), claim_c2_escaped _ _ _ (Or.inl (by decide))⟩

/-! ## Claims C3 and C10: the empty-cell placeholder -/

/-- Counterexample to C3 as stated over every cell, header cells included:
in the table whose single header cell is empty, the rendered document
contains an empty `<th></th>` tag body, and the placeholder glyph
(em dash, `Char.ofNat 8212`) appears nowhere in the document. -/
theorem claim_c3_counterexample :
    "                    <th></th>\n".toList <:+: generate_html [ [ [] ] ] ("T".toList) ∧
      (generate_html [ [ [] ] ] ("T".toList)).contains (Char.ofNat 8212) = false := by
  constructor
  · have h : ([] : List Char) ∈ ([ [ [] ] ] : List (List (List Char))).headD [] := by decide
    have h2 := headerCell_inf_doc h ("T".toList)
    rwa [show headerCellHtml [] = "                    <th></th>\n".toList from by decide] at h2
  · decide

/-- C3 (amended to data cells only): every body cell that is empty after
stripping is rendered as the placeholder line, which then occurs in the
rendered document. -/
theorem claim_c3_amended (rows : List (List (List Char))) (title : List Char)
    (row : List (List Char)) (cell : List Char) (hrow : row ∈ rows.drop 1)
    (hcell : cell ∈ row) (hempty : pyStrip cell = []) :
    dataCellHtml cell = emptyCellLine ∧ emptyCellLine <:+: generate_html rows title := by
  have hd : dataCellHtml cell = emptyCellLine := by simp [dataCellHtml, hempty]
  refine ⟨hd, ?_⟩
  have h := dataCell_inf_doc hrow hcell title
  rwa [hd] at h

/-- Witness for the amended C3 at a whitespace-only body cell. -/
theorem claim_c3_amended_witness :
    ( ([ [' '] ] : List (List Char)) ∈
          ([ [ "h".toList ], [ [' '] ] ] : List (List (List Char))).drop 1 ∧
        ([' '] : List Char) ∈ ([ [' '] ] : List (List Char)) ∧ pyStrip [' '] = [] ) ∧
      (dataCellHtml [' '] = emptyCellLine ∧
        emptyCellLine <:+: generate_html [ [ "h".toList ], [ [' '] ] ] ("T".toList)) :=
  ⟨⟨by decide, by decide, by decide⟩,
    claim_c3_amended [ [ "h".toList ], [ [' '] ] ] ("T".toList) [ [' '] ] [' ']
      (by decide) (by decide) (by decide)⟩

/-- C10: an empty-after-strip header cell renders as an empty `<th></th>`
tag with no placeholder glyph, and that empty tag occurs in the document. -/
theorem claim_c10_header_no_placeholder (rows : List (List (List Char)))
    (title cell : List Char) (hcell : cell ∈ rows.headD [])
    (hempty : pyStrip cell = []) :
    headerCellHtml cell = "                    <th></th>\n".toList ∧
      (headerCellHtml cell).contains (Char.ofNat 8212) = false ∧
      "                    <th></th>\n".toList <:+: generate_html rows title := by
  have h1 : headerCellHtml cell = "                    <th></th>\n".toList := by
    unfold headerCellHtml
    rw [hempty]
    decide
  refine ⟨h1, ?_, ?_⟩
  · rw [h1]
    decide
  · have h := headerCell_inf_doc hcell title
    rwa [h1] at h

/-- Witness for C10 at an empty header cell next to a nonempty one. -/
theorem claim_c10_header_no_placeholder_witness :
    ( ([] : List Char) ∈ ([ [ [], "x".toList ] ] : List (List (List Char))).headD [] ∧
        pyStrip ([] : List Char) = [] ) ∧
      (headerCellHtml [] = "                    <th></th>\n".toList ∧
        (headerCellHtml ([] : List Char)).contains (Char.ofNat 8212) = false ∧
        "                    <th></th>\n".toList <:+:
          generate_html [ [ [], "x".toList ] ] ("T".toList)) :=
  ⟨⟨by decide, by decide⟩,
    claim_c10_header_no_placeholder _ _ _ (by decide) (by decide)⟩

/-! ## Claim C4: stripping removes edge whitespace -/

theorem dropWhile_head_false {p : Char → Bool} :
    ∀ {l : List Char} {c : Char}, (l.dropWhile p).head? = some c → p c = false := by
  intro l
  induction l with
  | nil => intro c h; simp [List.dropWhile] at h
  | cons a t ih =>
    intro c h
    rw [List.dropWhile_cons] at h
    by_cases hp : p a
    · rw [if_pos hp] at h
      exact ih h
    · rw [if_neg hp] at h
      rw [List.head?_cons] at h
      injection h with h
      rw [← h]
      simp only [Bool.not_eq_true] at hp
      exact hp

theorem dropWhile_getLast_of_ne_nil {p : Char → Bool} {l : List Char}
    (h : l.dropWhile p ≠ []) : (l.dropWhile p).getLast? = l.getLast? := by
  obtain ⟨t, ht⟩ := List.dropWhile_suffix (l := l) p
  have h2 := List.getLast?_append_of_ne_nil t h
  rw [ht] at h2
  exact h2.symm

theorem noEdgeWs_iff (l : List Char) :
    noEdgeWs l = true ↔
      (∀ c, l.head? = some c → pyIsWs c = false) ∧
      (∀ c, l.getLast? = some c → pyIsWs c = false) := by
  unfold noEdgeWs
  cases hh : l.head? <;> cases hl : l.getLast? <;> simp [hh, hl]

theorem noEdgeWs_pyStrip (s : List Char) : noEdgeWs (pyStrip s) = true := by
  rw [noEdgeWs_iff]
  constructor
  · intro c hc
    rw [pyStrip, List.head?_reverse] at hc
    have hne : (s.dropWhile pyIsWs).reverse.dropWhile pyIsWs ≠ [] := by
      intro h0
      rw [h0] at hc
      simp at hc
    rw [dropWhile_getLast_of_ne_nil hne, List.getLast?_reverse] at hc
    exact dropWhile_head_false hc
  · intro c hc
    rw [pyStrip, List.getLast?_reverse] at hc
    exact dropWhile_head_false hc

theorem escChar_ne_nil (c : Char) : escChar c ≠ [] := by
  unfold escChar
  split_ifs <;> simp

theorem escChar_head_not_ws {c d : Char} (hc : pyIsWs c = false)
    (h : (escChar c).head? = some d) : pyIsWs d = false := by
  unfold escChar at h
  split_ifs at h with h1 h2 h3 h4 h5
  · rw [List.head?_cons] at h; injection h with h; rw [← h]; decide
  · rw [List.head?_cons] at h; injection h with h; rw [← h]; decide
  · rw [List.head?_cons] at h; injection h with h; rw [← h]; decide
  · rw [List.head?_cons] at h; injection h with h; rw [← h]; decide
  · rw [List.head?_cons] at h; injection h with h; rw [← h]; decide
  · rw [List.head?_cons] at h; injection h with h; rw [← h]; exact hc

theorem escChar_getLast_not_ws {c d : Char} (hc : pyIsWs c = false)
    (h : (escChar c).getLast? = some d) : pyIsWs d = false := by
  unfold escChar at h
  split_ifs at h with h1 h2 h3 h4 h5
  · rw [show (['&', 'a', 'm', 'p', ';'] : List Char).getLast? = some ';' from by decide] at h
    injection h with h; rw [← h]; decide
  · rw [show (['&', 'l', 't', ';'] : List Char).getLast? = some ';' from by decide] at h
    injection h with h; rw [← h]; decide
  · rw [show (['&', 'g', 't', ';'] : List Char).getLast? = some ';' from by decide] at h
    injection h with h; rw [← h]; decide
  · rw [show (['&', 'q', 'u', 'o', 't', ';'] : List Char).getLast? = some ';' from by decide] at h
    injection h with h; rw [← h]; decide
  · rw [show (['&', '#', 'x', '2', '7', ';'] : List Char).getLast? = some ';' from by decide] at h
    injection h with h; rw [← h]; decide
  · rw [List.getLast?_singleton] at h
    injection h with h
    rw [← h]
    exact hc

theorem htmlEscape_concat (l : List Char) (c : Char) :
    htmlEscape (l ++ [c]) = htmlEscape l ++ escChar c := by
  rw [htmlEscape, htmlEscape, List.flatMap_append]
  simp

theorem noEdgeWs_htmlEscape {l : List Char} (h : noEdgeWs l = true) :
    noEdgeWs (htmlEscape l) = true := by
  rw [noEdgeWs_iff] at h ⊢
  obtain ⟨hh, hl⟩ := h
  constructor
  · intro d hd
    cases l with
    | nil => simp [htmlEscape] at hd
    | cons c t =>
      have hc : pyIsWs c = false := hh c (by simp)
      rw [htmlEscape, List.flatMap_cons] at hd
      cases he : escChar c with
      | nil => exact absurd he (escChar_ne_nil c)
      | cons e es =>
        rw [he, List.cons_append, List.head?_cons] at hd
        injection hd with hd
        have he2 : (escChar c).head? = some e := by rw [he, List.head?_cons]
        rw [hd] at he2
        exact escChar_head_not_ws hc he2
  · intro d hd
    rcases List.eq_nil_or_concat l with rfl | ⟨t, c, rfl⟩
    · simp [htmlEscape] at hd
    · have hc : pyIsWs c = false := hl c (by simp)
      rw [List.concat_eq_append, htmlEscape_concat,
        List.getLast?_append_of_ne_nil _ (escChar_ne_nil c)] at hd
      exact escChar_getLast_not_ws hc hd

/-- C4: every cell value has its leading and trailing whitespace removed
before escaping, and the escaped text embedded in a cell neither begins nor
ends with whitespace. -/
theorem claim_c4_trimmed (cell : List Char) :
    noEdgeWs (pyStrip cell) = true ∧ noEdgeWs (htmlEscape (pyStrip cell)) = true :=
  ⟨noEdgeWs_pyStrip cell, noEdgeWs_htmlEscape (noEdgeWs_pyStrip cell)⟩

/-! ## Claim C5: default title derivation -/

/-- C5: with no explicit title, the title derived for input
`monthly_sales.csv` is `Monthly Sales`, and the conversion renders the
parsed rows under that title. -/
theorem claim_c5_default_title :
    defaultTitle ("monthly_sales.csv".toList) = "Monthly Sales".toList ∧
      ∀ rows : List (List (List Char)), rows ≠ [] →
        csv_to_html true (ReadOutcome.ok rows) ("monthly_sales.csv".toList) none
          = Except.ok (generate_html rows ("Monthly Sales".toList)) := by
  have ht : defaultTitle ("monthly_sales.csv".toList) = "Monthly Sales".toList := by decide
  refine ⟨ht, ?_⟩
  intro rows hrows
  simp [csv_to_html, hrows]
  exact congrArg (generate_html rows) (by decide)

/-- Witness for C5 at a one-row table. -/
theorem claim_c5_default_title_witness :
    (([ [ "x".toList ] ] : List (List (List Char))) ≠ []) ∧
      (defaultTitle ("monthly_sales.csv".toList) = "Monthly Sales".toList ∧
        csv_to_html true (ReadOutcome.ok [ [ "x".toList ] ]) ("monthly_sales.csv".toList) none
          = Except.ok (generate_html [ [ "x".toList ] ] ("Monthly Sales".toList))) :=
  ⟨by decide, ⟨claim_c5_default_title.1, claim_c5_default_title.2 _ (by decide)⟩⟩

/-! ## Claims C7 and C8: error handling -/

/-- Counterexample to C7 as stated: the whitespace-only file `"  \n  \n"`
does not produce a value error.  Its read outcome is `spaceOnlyRows` (the
sniffer returns the space delimiter and the reader yields two rows of empty
fields), the conversion succeeds, and the entry point exits with status 0,
printing the rendered document to standard output and nothing to standard
error — not a value error with exit status 1. -/
theorem claim_c7_counterexample :
    csv_to_html true (ReadOutcome.ok spaceOnlyRows) ("data.csv".toList) none
        = Except.ok (generate_html spaceOnlyRows ("Data".toList)) ∧
      main_run true (ReadOutcome.ok spaceOnlyRows) ("data.csv".toList) none
        = ⟨0, generate_html spaceOnlyRows ("Data".toList) ++ ['\n'], []⟩ := by
  have hne : spaceOnlyRows ≠ [] := by decide
  have ht : defaultTitle ("data.csv".toList) = "Data".toList := by decide
  have h1 : csv_to_html true (ReadOutcome.ok spaceOnlyRows) ("data.csv".toList) none
      = Except.ok (generate_html spaceOnlyRows (defaultTitle ("data.csv".toList))) := by
    simp [csv_to_html, hne]
  have h2 : main_run true (ReadOutcome.ok spaceOnlyRows) ("data.csv".toList) none
      = ⟨0, generate_html spaceOnlyRows (defaultTitle ("data.csv".toList)) ++ ['\n'], []⟩ := by
    rw [main_run, h1]
  rw [h1, h2, ht]
  exact ⟨rfl, rfl⟩

/-- C7 (amended: a whitespace-only file is not always an error — space-only
content sniffs the space delimiter, parses into nonempty rows and renders
with exit status 0; the value error applies when the read raises, as on
empty or newline-only content, or yields no rows): on an existing file
whose read raises or yields no rows, the conversion fails with a value
error and the entry point exits with status 1, printing the error to
standard error and nothing to standard output. -/
theorem claim_c7_empty_value_error (outcome : ReadOutcome) (path : List Char)
    (title : Option (List Char))
    (h : (∃ e, outcome = ReadOutcome.err e) ∨ outcome = ReadOutcome.ok []) :
    ∃ msg, csv_to_html true outcome path title = Except.error (PyError.valueError msg) ∧
      main_run true outcome path title = ⟨1, [], "Error: ".toList ++ msg ++ ['\n']⟩ := by
  rcases h with ⟨e, rfl⟩ | rfl
  · exact ⟨"Error reading CSV file: ".toList ++ e, by simp [csv_to_html],
      by simp [main_run, csv_to_html]⟩
  · exact ⟨"CSV file is empty".toList, by simp [csv_to_html],
      by simp [main_run, csv_to_html]⟩

/-- Witness for C7 at an empty parse result. -/
theorem claim_c7_empty_value_error_witness :
    ((∃ e, ReadOutcome.ok [] = ReadOutcome.err e) ∨
        (ReadOutcome.ok [] : ReadOutcome) = ReadOutcome.ok []) ∧
      ∃ msg, csv_to_html true (ReadOutcome.ok []) ("data.csv".toList) none
          = Except.error (PyError.valueError msg) ∧
        main_run true (ReadOutcome.ok []) ("data.csv".toList) none
          = ⟨1, [], "Error: ".toList ++ msg ++ ['\n']⟩ :=
  ⟨Or.inr rfl, claim_c7_empty_value_error _ _ _ (Or.inr rfl)⟩

/-- C8: when the path does not exist the conversion fails with a not-found
error whose outcome is independent of anything the reader would have
produced, and the entry point exits with status 1, the message on standard
error and nothing on standard output. -/
theorem claim_c8_not_found (outcome outcome2 : ReadOutcome) (path : List Char)
    (title : Option (List Char)) :
    csv_to_html false outcome path title
        = Except.error (PyError.fileNotFound ("CSV file not found: ".toList ++ path)) ∧
      main_run false outcome path title = main_run false outcome2 path title ∧
      main_run false outcome path title
        = ⟨1, [], "Error: CSV file not found: ".toList ++ path ++ ['\n']⟩ := by
  refine ⟨by simp [csv_to_html], by simp [main_run, csv_to_html], ?_⟩
  simp only [main_run, csv_to_html]
  rw [show ("Error: CSV file not found: ".toList : List Char)
      = "Error: ".toList ++ "CSV file not found: ".toList from by decide]
  simp [List.append_assoc]

/-! ## Claim C6: the scenario table -/

/-- Counterexample to C6 as stated: in the scenario table the rendered
header cell for `a` is the verbatim `<th>a</th>` line, and the header
section contains no `<th>A</th>` line, so the document's header cells are
not `A`,`B`. -/
theorem claim_c6_counterexample :
    "                    <th>a</th>\n".toList <:+: generate_html scenarioRows ("T".toList) ∧
      ¬ ("                    <th>A</th>\n".toList <:+: theadPart scenarioRows) := by
  constructor
  · have h : ("a".toList : List Char) ∈ scenarioRows.headD [] := by decide
    have h2 := headerCell_inf_doc h ("T".toList)
    rwa [show headerCellHtml ("a".toList) = "                    <th>a</th>\n".toList
      from by decide] at h2
  · decide

/-- C6 (amended: header text is rendered verbatim, so the markup holds
`a`,`b`; the uppercase display comes from the style sheet): the scenario
document contains the verbatim header cells, the data cells `1`,`2`, the
placeholder followed by `4`, and the summary `2 rows and 2 columns`. -/
theorem claim_c6_amended (title : List Char) :
    "                    <th>a</th>\n                    <th>b</th>\n".toList <:+:
        generate_html scenarioRows title ∧
      "                    <td>1</td>\n                    <td>2</td>\n".toList <:+:
        generate_html scenarioRows title ∧
      emptyCellLine ++ "                    <td>4</td>\n".toList <:+:
        generate_html scenarioRows title ∧
      summaryText 2 2 <:+: generate_html scenarioRows title := by
  refine ⟨?_, ?_, ?_, ?_⟩
  · have h : "                    <th>a</th>\n                    <th>b</th>\n".toList <:+:
        theadPart scenarioRows := by decide
    unfold generate_html
    exact isInf_append_left _ (isInf_append_left _ (isInf_append_right _ h))
  · have h : "                    <td>1</td>\n                    <td>2</td>\n".toList <:+:
        tbodyPart scenarioRows := by decide
    unfold generate_html
    exact isInf_append_left _ (isInf_append_right _ h)
  · have h : emptyCellLine ++ "                    <td>4</td>\n".toList <:+:
        tbodyPart scenarioRows := by decide
    unfold generate_html
    exact isInf_append_left _ (isInf_append_right _ h)
  · have h : summaryText 2 2 <:+: infoPart scenarioRows := by decide
    unfold generate_html
    exact isInf_append_right _ h

/-! ## Claim C9: the renderer is total, also on the empty row list -/

theorem docHead1_prefix_doc (rows : List (List (List Char))) (title : List Char) :
    docHead1 <+: generate_html rows title := by
  have h := List.prefix_append docHead1
    ((htmlEscape title ++ docHead2 ++ cssStyles ++ docHead3 ++ htmlEscape title ++ docHead4)
      ++ theadPart rows ++ tbodyPart rows ++ infoPart rows)
  have he : generate_html rows title
      = docHead1 ++ ((htmlEscape title ++ docHead2 ++ cssStyles ++ docHead3
          ++ htmlEscape title ++ docHead4)
        ++ theadPart rows ++ tbodyPart rows ++ infoPart rows) := by
    simp [generate_html, docHead, List.append_assoc]
  rwa [← he] at h

/-- C9: `generate_html` is total at its interface: the document is never
empty, and on the empty row list the header section is skipped and the
summary reports 0 rows and 0 columns, with no out-of-range access. -/
theorem claim_c9_total :
    (∀ (rows : List (List (List Char))) (title : List Char),
        generate_html rows title ≠ []) ∧
      (∀ title : List Char, generate_html [] title
          = docHead title ++ tbodyOpen ++ tbodyClose
            ++ infoOpen ++ summaryText 0 0 ++ infoClose) ∧
      (∀ title : List Char, summaryText 0 0 <:+: generate_html [] title) := by
  have hd1 : (docHead1 : List Char) ≠ [] := by decide
  refine ⟨?_, ?_, ?_⟩
  · intro rows title h0
    have hp := docHead1_prefix_doc rows title
    rw [h0] at hp
    exact hd1 (List.prefix_nil.mp hp)
  · intro title
    simp [generate_html, theadPart, tbodyPart, infoPart, totalRows, totalCols,
      List.append_assoc]
  · intro title
    have h : summaryText 0 0 <:+: infoPart ([] : List (List (List Char))) :=
      List.infix_append infoOpen (summaryText 0 0) infoClose
    unfold generate_html
    exact isInf_append_right _ h

end Csv2Html
